import Mathlib

/-!
Shallow embedding of `src/rotkehlchen/globaldb/upgrades/manager.py`
(`maybe_upgrade_globaldb`), the global-database upgrade engine of rotki.

The database file is modelled as a `DBFile`: its settings table (restricted to
the two keys the engine reads and writes, `version` and
`ongoing_upgrade_from_version`, with values as parsed integers) plus an
abstract `payload` standing for all other file content.  A missing settings
table (`settings = none`) is the "fresh database" case in which the version
read raises `sqlite3.OperationalError` in the Python code.

The directory `global_dir` is modelled as `FS`: the live `global.db` file plus
the named backup files the engine creates with `shutil.copyfile`.

Migration step functions are opaque callables supplied through
`UPGRADES_LIST`; a step receives the open connection (here: the live
`DBFile`), and either returns the migrated database or raises, in which case
it reports the error message together with the (possibly partially mutated)
state the live database was left in at raise time.

The engine run returns a `RunOutcome`: the Python return value or raised
exception (`result`), the final file system (`fs`), and the ordered list of
observable states of the live database file — its initial state followed by
its state after every committed transaction or file copy that touched it
(`states`).
-/

namespace Rotki

/-- The settings key-value table of the global database, restricted to the two
keys the upgrade engine touches: `version` and `ongoing_upgrade_from_version`
(both stored as decimal strings in the real table, modelled here as parsed
naturals; `none` means the key is absent). -/
structure SettingsTable where
  version : Option Nat
  ongoing_upgrade_from_version : Option Nat
deriving DecidableEq, Repr

/-- The byte content of the `global.db` database file: its settings table
(`none` when the table does not exist at all, i.e. an uninitialized database)
plus an abstract payload standing for every other table and row. -/
structure DBFile where
  settings : Option SettingsTable
  payload : Nat
deriving DecidableEq, Repr

/-- The `global_dir` directory: the live `global.db` file and the backup files
created by the engine, in creation order, each with its file name. -/
structure FS where
  globalDb : DBFile
  backups : List (String × DBFile)
deriving DecidableEq, Repr

/-- Modelled from the spec: `GLOBAL_DB_VERSION` lives in
`rotkehlchen/globaldb/utils.py`, which is not under `src/`; the spec's
scenarios fix `CURRENT_VERSION = 3`. -/
def GLOBAL_DB_VERSION : Nat := 3

/-- Modelled from the spec: `MIN_SUPPORTED_GLOBAL_DB_VERSION` lives in
`rotkehlchen/globaldb/utils.py`, which is not under `src/`; the spec's
scenarios fix `MIN_SUPPORTED_VERSION = 2`. -/
def MIN_SUPPORTED_GLOBAL_DB_VERSION : Nat := 2

/-- Modelled from the spec: `_get_setting_value(cursor, name, default_value)`
of `rotkehlchen/globaldb/utils.py` (not under `src/`), per the SettingsStore
interface `get(name, default)`: the stored value of the key when present,
otherwise the supplied default.  Specialized to the `version` key, the only
key the engine reads. -/
def get_setting_version (s : SettingsTable) (default_value : Nat) : Nat :=
  (s.version).getD default_value

/-- Modelled from the spec: `_add_setting_value` of
`rotkehlchen/globaldb/utils.py` (not under `src/`), per the SettingsStore
interface `set(name, value)` (INSERT OR REPLACE), specialized to the
`ongoing_upgrade_from_version` key as used at manager.py:72. -/
def add_marker_setting (db : DBFile) (v : Nat) : DBFile :=
  { db with settings := db.settings.map fun s => { s with ongoing_upgrade_from_version := some v } }

/-- Modelled from the spec: `_delete_setting_value` of
`rotkehlchen/globaldb/utils.py` (not under `src/`), per the SettingsStore
interface `delete(name)`, specialized to the `ongoing_upgrade_from_version`
key as used at manager.py:92. -/
def delete_marker_setting (db : DBFile) : DBFile :=
  { db with settings := db.settings.map fun s => { s with ongoing_upgrade_from_version := none } }

/-- The direct write at manager.py:93-96:
`INSERT OR REPLACE INTO settings(name, value) VALUES('version', str(v))`. -/
def write_version_setting (db : DBFile) (v : Nat) : DBFile :=
  { db with settings := db.settings.map fun s => { s with version := some v } }

/-- One registered migration step: the exact `from_version` it applies to and
its opaque migration function.  The function operates on the live database
through the open connection; on success it returns the migrated database, on
failure (`raise`) it returns the error message together with the possibly
partially mutated state it left the live database in. -/
structure UpgradeRecord where
  from_version : Nat
  function : DBFile → Except (String × DBFile) DBFile

/-- The exceptions that can escape `maybe_upgrade_globaldb`: the `ValueError`s
it raises itself (manager.py:47, 55, 88), and an OS-level error propagated
uncaught out of the `shutil.copyfile` restore at manager.py:87. -/
inductive EngineError where
  | valueError (msg : String)
  | osError (msg : String)
deriving DecidableEq, Repr

/-- The outcome of one engine run: the Python return value (`Bool`, `true` for
a fresh database) or the raised exception; the final state of `global_dir`;
and the ordered observable states of the live `global.db` file (its initial
state, then its state after each committed transaction or file copy that
modified it). -/
structure RunOutcome where
  result : Except EngineError Bool
  fs : FS
  states : List DBFile
deriving Repr

/-- The message of the `ValueError` raised at manager.py:47-53 for a database
older than the supported range. -/
def tooOldMessage (db_version : Nat) : String :=
  s!"Your account was last opened by a very old version of rotki and its globaldb version is {db_version}. To be able to use it you will need to first use a previous version of rotki and then use this one. Refer to the documentation for more information. https://rotki.readthedocs.io/en/latest/usage_guide.html#upgrading-rotki-after-a-very-long-time"

/-- The message of the `ValueError` raised at manager.py:55-58 for a database
newer than the running version expects. -/
def tooNewMessage (db_version : Nat) : String :=
  s!"Tried to open a rotki version intended to work with GlobalDB v{GLOBAL_DB_VERSION} but the GlobalDB found in the system is v{db_version}. Bailing ..."

/-- The `error_message` built at manager.py:82-85 when a step's migration
function raises: it carries the version range attempted and the original
error's message. -/
def upgradeFailMessage (from_version to_version : Nat) (e : String) : String :=
  s!"Failed at global DB upgrade from version {from_version} to {to_version}: {e}"

/-- The backup file name `f'\x7bts_now()\x7d_global_db_v\x7bdb_version\x7d.backup'`
of manager.py:67, with the wall clock passed in as `tsNow`. -/
def backupName (tsNow db_version : Nat) : String :=
  s!"{tsNow}_global_db_v{db_version}.backup"

/-- The `for upgrade in UPGRADES_LIST` loop of manager.py:60-96, followed by
the `return False` of manager.py:98.  `restoreError` is the environment
oracle for the `shutil.copyfile` restoring the backup at manager.py:87:
`none` means the copy succeeds, `some m` means it raises an OS error with
message `m`.  `db_version` is the Python local read once before the loop and
never re-read.  `fs` and `states` are the file system and the observable-state
trace accumulated so far. -/
def upgradeLoop (restoreError : Option String) (tsNow db_version : Nat) :
    List UpgradeRecord → FS → List DBFile → RunOutcome
  | [], fs, states => ⟨.ok false, fs, states⟩
  | upgrade :: rest, fs, states =>
    if db_version = upgrade.from_version then
      -- start the upgrade
      let to_version := upgrade.from_version + 1
      -- Create a backup (shutil.copyfile(global_dir / 'global.db', tmp_db_path))
      let fs1 : FS :=
        { fs with backups :=
            fs.backups ++ [(backupName tsNow db_version, fs.globalDb)] }
      -- write_ctx: _add_setting_value('ongoing_upgrade_from_version', from_version)
      let marked : DBFile := add_marker_setting fs1.globalDb upgrade.from_version
      let fs2 : FS := { fs1 with globalDb := marked }
      let states2 := states ++ [marked]
      match upgrade.function marked with
      | .error (e, partialDb) =>
        -- Problem .. restore DB backup and bail out
        let error_message := upgradeFailMessage upgrade.from_version to_version e
        match restoreError with
        | some m =>
          -- shutil.copyfile(tmp_db_path, global_dir / 'global.db') itself raised
          ⟨.error (.osError m), { fs2 with globalDb := partialDb },
            states2 ++ [partialDb]⟩
        | none =>
          -- raise ValueError(error_message) from e
          ⟨.error (.valueError error_message), { fs2 with globalDb := fs.globalDb },
            states2 ++ [partialDb, fs.globalDb]⟩
      | .ok migrated =>
        -- single upgrade succesfull: one write_ctx deletes the marker and
        -- stamps the version, committed together
        let committed : DBFile :=
          write_version_setting (delete_marker_setting migrated) GLOBAL_DB_VERSION
        upgradeLoop restoreError tsNow db_version rest
          { fs2 with globalDb := committed } (states2 ++ [migrated, committed])
    else
      upgradeLoop restoreError tsNow db_version rest fs states

/-- `maybe_upgrade_globaldb(connection, global_dir)` of manager.py:35-98,
parameterized over the registered upgrade list, the wall clock `tsNow`, and
the restore-copy oracle `restoreError`.  A missing settings table makes the
version read raise `sqlite3.OperationalError`, answered with `return True`
(fresh database); otherwise the version is read with `GLOBAL_DB_VERSION` as
default, range-checked, and the upgrade loop runs. -/
def maybe_upgrade_globaldb (restoreError : Option String) (tsNow : Nat)
    (upgrades : List UpgradeRecord) (fs : FS) : RunOutcome :=
  match fs.globalDb.settings with
  | none => ⟨.ok true, fs, [fs.globalDb]⟩
  | some st =>
    let db_version := get_setting_version st GLOBAL_DB_VERSION
    if db_version < MIN_SUPPORTED_GLOBAL_DB_VERSION then
      ⟨.error (.valueError (tooOldMessage db_version)), fs, [fs.globalDb]⟩
    else if GLOBAL_DB_VERSION < db_version then
      ⟨.error (.valueError (tooNewMessage db_version)), fs, [fs.globalDb]⟩
    else
      upgradeLoop restoreError tsNow db_version upgrades fs [fs.globalDb]

/-- `UPGRADES_LIST` of manager.py:27-32: one registered record, migrating from
version 2 with `migrate_to_v3`.  The migration function `migrate_to_v3`
(`v2_v3.py`, not under `src/`) is an opaque collaborator per the spec, so it
is a parameter here. -/
def UPGRADES_LIST (migrate_to_v3 : DBFile → Except (String × DBFile) DBFile) :
    List UpgradeRecord :=
  [⟨2, migrate_to_v3⟩]

/-- A migration step used in concrete runs: it succeeds and returns the
database unchanged. -/
def demoOkStep : DBFile → Except (String × DBFile) DBFile :=
  fun db => .ok db

/-- A migration step used in concrete runs: it mutates the payload and then
raises with message `boom`. -/
def demoFailStep : DBFile → Except (String × DBFile) DBFile :=
  fun db => .error ("boom", { db with payload := 99 })

/-- The stored schema version of a database file: `none` when the settings
table or the `version` key is absent. -/
def DBFile.storedVersion (db : DBFile) : Option Nat :=
  db.settings.bind fun s => s.version

/-- Whether the `ongoing_upgrade_from_version` progress marker is present. -/
def DBFile.hasMarker (db : DBFile) : Bool :=
  (db.settings.bind fun s => s.ongoing_upgrade_from_version).isSome

end Rotki

namespace Rotki

/-- Equation for a run that reaches the single registered step at version 2
and whose migration function succeeds, returning `migrated`. -/
theorem run_step_ok_eq (f : DBFile → Except (String × DBFile) DBFile)
    (restoreError : Option String) (tsNow p : Nat) (m0 : Option Nat)
    (b0 : List (String × DBFile)) (migrated : DBFile)
    (hf : f ⟨some ⟨some 2, some 2⟩, p⟩ = .ok migrated) :
    maybe_upgrade_globaldb restoreError tsNow (UPGRADES_LIST f)
      ⟨⟨some ⟨some 2, m0⟩, p⟩, b0⟩ =
    ⟨.ok false,
     ⟨write_version_setting (delete_marker_setting migrated) GLOBAL_DB_VERSION,
      b0 ++ [(backupName tsNow 2, ⟨some ⟨some 2, m0⟩, p⟩)]⟩,
     [⟨some ⟨some 2, m0⟩, p⟩, ⟨some ⟨some 2, some 2⟩, p⟩, migrated,
      write_version_setting (delete_marker_setting migrated) GLOBAL_DB_VERSION]⟩ := by
  simp [maybe_upgrade_globaldb, upgradeLoop, UPGRADES_LIST, get_setting_version,
        MIN_SUPPORTED_GLOBAL_DB_VERSION, GLOBAL_DB_VERSION, add_marker_setting, hf]

/-- Equation for a run that reaches the single registered step at version 2,
whose migration function raises leaving the live file in state `partialDb`,
and whose backup restore succeeds. -/
theorem run_step_fail_eq (f : DBFile → Except (String × DBFile) DBFile)
    (tsNow p : Nat) (m0 : Option Nat) (b0 : List (String × DBFile))
    (e : String) (partialDb : DBFile)
    (hf : f ⟨some ⟨some 2, some 2⟩, p⟩ = .error (e, partialDb)) :
    maybe_upgrade_globaldb none tsNow (UPGRADES_LIST f)
      ⟨⟨some ⟨some 2, m0⟩, p⟩, b0⟩ =
    ⟨.error (.valueError (upgradeFailMessage 2 3 e)),
     ⟨⟨some ⟨some 2, m0⟩, p⟩, b0 ++ [(backupName tsNow 2, ⟨some ⟨some 2, m0⟩, p⟩)]⟩,
     [⟨some ⟨some 2, m0⟩, p⟩, ⟨some ⟨some 2, some 2⟩, p⟩, partialDb,
      ⟨some ⟨some 2, m0⟩, p⟩]⟩ := by
  simp [maybe_upgrade_globaldb, upgradeLoop, UPGRADES_LIST, get_setting_version,
        MIN_SUPPORTED_GLOBAL_DB_VERSION, GLOBAL_DB_VERSION, add_marker_setting, hf]

/-- Equation for a run that reaches the single registered step at version 2,
whose migration function raises, and whose backup restore itself fails with
OS error message `m`. -/
theorem run_step_fail_restore_fail_eq (f : DBFile → Except (String × DBFile) DBFile)
    (tsNow p : Nat) (m0 : Option Nat) (b0 : List (String × DBFile))
    (e : String) (partialDb : DBFile) (m : String)
    (hf : f ⟨some ⟨some 2, some 2⟩, p⟩ = .error (e, partialDb)) :
    maybe_upgrade_globaldb (some m) tsNow (UPGRADES_LIST f)
      ⟨⟨some ⟨some 2, m0⟩, p⟩, b0⟩ =
    ⟨.error (.osError m),
     ⟨partialDb, b0 ++ [(backupName tsNow 2, ⟨some ⟨some 2, m0⟩, p⟩)]⟩,
     [⟨some ⟨some 2, m0⟩, p⟩, ⟨some ⟨some 2, some 2⟩, p⟩, partialDb]⟩ := by
  simp [maybe_upgrade_globaldb, upgradeLoop, UPGRADES_LIST, get_setting_version,
        MIN_SUPPORTED_GLOBAL_DB_VERSION, GLOBAL_DB_VERSION, add_marker_setting, hf]

/-- The upgrade loop is a no-op when no registered record matches the version
read before the loop. -/
theorem upgradeLoop_no_match (restoreError : Option String) (tsNow db_version : Nat)
    (upgrades : List UpgradeRecord) (fs : FS) (states : List DBFile)
    (h : ∀ u ∈ upgrades, u.from_version ≠ db_version) :
    upgradeLoop restoreError tsNow db_version upgrades fs states =
      ⟨.ok false, fs, states⟩ := by
  induction upgrades with
  | nil => simp [upgradeLoop]
  | cons u rest ih =>
    have hu : u.from_version ≠ db_version := h u (List.mem_cons_self u rest)
    have hrest : ∀ v ∈ rest, v.from_version ≠ db_version :=
      fun v hv => h v (List.mem_cons_of_mem u hv)
    simp [upgradeLoop, Ne.symm hu, ih hrest]

/-- The message built for a failed step literally ends with the original
step error's message. -/
theorem upgradeFailMessage_carries (e : String) :
    upgradeFailMessage 2 3 e =
      "Failed at global DB upgrade from version 2 to 3: " ++ e := by
  unfold upgradeFailMessage
  simp [toString]
  congr 1

end Rotki

namespace Rotki

/-- C1: if a registered migration step's apply function raises, the engine
restores the live database file to the exact bytes of the backup snapshot
taken before the step began — so the post-run file equals the pre-run file —
and raises a fatal `ValueError` whose message carries the original step's
error message and the from/to version range attempted; the run never returns
normally in this branch. -/
theorem C1_step_failure_restores_and_raises
    (f : DBFile → Except (String × DBFile) DBFile) (tsNow p : Nat)
    (m0 : Option Nat) (b0 : List (String × DBFile)) (e : String)
    (partialDb : DBFile)
    (hf : f ⟨some ⟨some 2, some 2⟩, p⟩ = .error (e, partialDb)) :
    (maybe_upgrade_globaldb none tsNow (UPGRADES_LIST f)
        ⟨⟨some ⟨some 2, m0⟩, p⟩, b0⟩).fs.globalDb = ⟨some ⟨some 2, m0⟩, p⟩ ∧
    (maybe_upgrade_globaldb none tsNow (UPGRADES_LIST f)
        ⟨⟨some ⟨some 2, m0⟩, p⟩, b0⟩).fs.backups =
      b0 ++ [(backupName tsNow 2, ⟨some ⟨some 2, m0⟩, p⟩)] ∧
    (maybe_upgrade_globaldb none tsNow (UPGRADES_LIST f)
        ⟨⟨some ⟨some 2, m0⟩, p⟩, b0⟩).result =
      .error (.valueError (upgradeFailMessage 2 3 e)) ∧
    upgradeFailMessage 2 3 e =
      "Failed at global DB upgrade from version 2 to 3: " ++ e ∧
    ∀ b : Bool, (maybe_upgrade_globaldb none tsNow (UPGRADES_LIST f)
        ⟨⟨some ⟨some 2, m0⟩, p⟩, b0⟩).result ≠ .ok b := by
  rw [run_step_fail_eq f tsNow p m0 b0 e partialDb hf]
  refine ⟨rfl, rfl, rfl, upgradeFailMessage_carries e, ?_⟩
  intro b
  simp

/-- Witness for C1 at a concrete input: the step `demoFailStep` raises with
message `boom`, the file comes back byte-identical and the fatal error
carries the message and the 2→3 range. -/
theorem C1_witness :
    demoFailStep ⟨some ⟨some 2, some 2⟩, 7⟩ =
      .error ("boom", ⟨some ⟨some 2, some 2⟩, 99⟩) ∧
    ((maybe_upgrade_globaldb none 5 (UPGRADES_LIST demoFailStep)
        ⟨⟨some ⟨some 2, none⟩, 7⟩, []⟩).fs.globalDb = ⟨some ⟨some 2, none⟩, 7⟩ ∧
     (maybe_upgrade_globaldb none 5 (UPGRADES_LIST demoFailStep)
        ⟨⟨some ⟨some 2, none⟩, 7⟩, []⟩).fs.backups =
       [] ++ [(backupName 5 2, ⟨some ⟨some 2, none⟩, 7⟩)] ∧
     (maybe_upgrade_globaldb none 5 (UPGRADES_LIST demoFailStep)
        ⟨⟨some ⟨some 2, none⟩, 7⟩, []⟩).result =
       .error (.valueError (upgradeFailMessage 2 3 "boom")) ∧
     upgradeFailMessage 2 3 "boom" =
       "Failed at global DB upgrade from version 2 to 3: " ++ "boom" ∧
     ∀ b : Bool, (maybe_upgrade_globaldb none 5 (UPGRADES_LIST demoFailStep)
        ⟨⟨some ⟨some 2, none⟩, 7⟩, []⟩).result ≠ .ok b) :=
  ⟨rfl, C1_step_failure_restores_and_raises demoFailStep 5 7 none [] "boom"
    ⟨some ⟨some 2, some 2⟩, 99⟩ rfl⟩

/-- C2: running the engine on a database stored at the registered step's
`from_version = 2` with a succeeding apply leaves the database stamped with
`SchemaVersion = 2 + 1` and with no `ongoing_upgrade_from_version` marker
(provided the step leaves the settings table in existence, as the step
contract requires). -/
theorem C2_successful_step_bumps_version_clears_marker
    (f : DBFile → Except (String × DBFile) DBFile)
    (restoreError : Option String) (tsNow p : Nat) (m0 : Option Nat)
    (b0 : List (String × DBFile)) (migrated : DBFile)
    (hf : f ⟨some ⟨some 2, some 2⟩, p⟩ = .ok migrated)
    (hs : migrated.settings.isSome = true) :
    (maybe_upgrade_globaldb restoreError tsNow (UPGRADES_LIST f)
        ⟨⟨some ⟨some 2, m0⟩, p⟩, b0⟩).result = .ok false ∧
    (maybe_upgrade_globaldb restoreError tsNow (UPGRADES_LIST f)
        ⟨⟨some ⟨some 2, m0⟩, p⟩, b0⟩).fs.globalDb.storedVersion = some (2 + 1) ∧
    (maybe_upgrade_globaldb restoreError tsNow (UPGRADES_LIST f)
        ⟨⟨some ⟨some 2, m0⟩, p⟩, b0⟩).fs.globalDb.hasMarker = false := by
  rw [run_step_ok_eq f restoreError tsNow p m0 b0 migrated hf]
  obtain ⟨s, hs2⟩ := Option.isSome_iff_exists.mp hs
  refine ⟨rfl, ?_, ?_⟩ <;>
    simp [DBFile.storedVersion, DBFile.hasMarker, write_version_setting,
      delete_marker_setting, GLOBAL_DB_VERSION, hs2]

/-- Witness for C2 at a concrete input: the identity step `demoOkStep`
succeeds and the database ends at version 3 with no marker. -/
theorem C2_witness :
    demoOkStep ⟨some ⟨some 2, some 2⟩, 7⟩ = .ok ⟨some ⟨some 2, some 2⟩, 7⟩ ∧
    (⟨some ⟨some 2, some 2⟩, 7⟩ : DBFile).settings.isSome = true ∧
    ((maybe_upgrade_globaldb none 5 (UPGRADES_LIST demoOkStep)
        ⟨⟨some ⟨some 2, none⟩, 7⟩, []⟩).result = .ok false ∧
     (maybe_upgrade_globaldb none 5 (UPGRADES_LIST demoOkStep)
        ⟨⟨some ⟨some 2, none⟩, 7⟩, []⟩).fs.globalDb.storedVersion = some (2 + 1) ∧
     (maybe_upgrade_globaldb none 5 (UPGRADES_LIST demoOkStep)
        ⟨⟨some ⟨some 2, none⟩, 7⟩, []⟩).fs.globalDb.hasMarker = false) :=
  ⟨rfl, rfl, C2_successful_step_bumps_version_clears_marker demoOkStep none 5 7
    none [] ⟨some ⟨some 2, some 2⟩, 7⟩ rfl rfl⟩

/-- C3: for a successfully completed step, the marker deletion and the new
version write are committed in one and the same transaction: in the observable
state trace of the live database no state has the new version together with
the marker, and at every observable transition where the marker disappears the
new version appears simultaneously (assuming the step leaves the engine's two
bookkeeping keys as it found them, per the step contract). -/
theorem C3_marker_deletion_and_version_write_atomic
    (f : DBFile → Except (String × DBFile) DBFile)
    (restoreError : Option String) (tsNow p : Nat) (m0 : Option Nat)
    (b0 : List (String × DBFile)) (migrated : DBFile)
    (hf : f ⟨some ⟨some 2, some 2⟩, p⟩ = .ok migrated)
    (hpres : migrated.settings = some ⟨some 2, some 2⟩) :
    (maybe_upgrade_globaldb restoreError tsNow (UPGRADES_LIST f)
        ⟨⟨some ⟨some 2, m0⟩, p⟩, b0⟩).states =
      [⟨some ⟨some 2, m0⟩, p⟩, ⟨some ⟨some 2, some 2⟩, p⟩, migrated,
       write_version_setting (delete_marker_setting migrated) GLOBAL_DB_VERSION] ∧
    (∀ s ∈ (maybe_upgrade_globaldb restoreError tsNow (UPGRADES_LIST f)
        ⟨⟨some ⟨some 2, m0⟩, p⟩, b0⟩).states,
      ¬(s.storedVersion = some GLOBAL_DB_VERSION ∧ s.hasMarker = true)) ∧
    List.Chain' (fun a b => (a.hasMarker = true ∧ b.hasMarker = false) →
        (a.storedVersion = some 2 ∧ b.storedVersion = some GLOBAL_DB_VERSION))
      (maybe_upgrade_globaldb restoreError tsNow (UPGRADES_LIST f)
        ⟨⟨some ⟨some 2, m0⟩, p⟩, b0⟩).states := by
  rw [run_step_ok_eq f restoreError tsNow p m0 b0 migrated hf]
  refine ⟨rfl, ?_, ?_⟩
  · intro s hs
    simp only [List.mem_cons, List.not_mem_nil, or_false] at hs
    rcases hs with rfl | rfl | rfl | rfl <;>
      simp [DBFile.storedVersion, DBFile.hasMarker, write_version_setting,
        delete_marker_setting, GLOBAL_DB_VERSION, hpres]
  · simp [List.chain'_cons, DBFile.storedVersion, DBFile.hasMarker,
      write_version_setting, delete_marker_setting, GLOBAL_DB_VERSION, hpres]

/-- Witness for C3 at a concrete input: the identity step with the trace
`[v2, v2+marker, v2+marker, v3]`. -/
theorem C3_witness :
    demoOkStep ⟨some ⟨some 2, some 2⟩, 7⟩ = .ok ⟨some ⟨some 2, some 2⟩, 7⟩ ∧
    (⟨some ⟨some 2, some 2⟩, 7⟩ : DBFile).settings = some ⟨some 2, some 2⟩ ∧
    ((maybe_upgrade_globaldb none 5 (UPGRADES_LIST demoOkStep)
        ⟨⟨some ⟨some 2, none⟩, 7⟩, []⟩).states =
      [⟨some ⟨some 2, none⟩, 7⟩, ⟨some ⟨some 2, some 2⟩, 7⟩,
       ⟨some ⟨some 2, some 2⟩, 7⟩,
       write_version_setting (delete_marker_setting ⟨some ⟨some 2, some 2⟩, 7⟩)
         GLOBAL_DB_VERSION] ∧
     (∀ s ∈ (maybe_upgrade_globaldb none 5 (UPGRADES_LIST demoOkStep)
        ⟨⟨some ⟨some 2, none⟩, 7⟩, []⟩).states,
       ¬(s.storedVersion = some GLOBAL_DB_VERSION ∧ s.hasMarker = true)) ∧
     List.Chain' (fun a b => (a.hasMarker = true ∧ b.hasMarker = false) →
         (a.storedVersion = some 2 ∧ b.storedVersion = some GLOBAL_DB_VERSION))
       (maybe_upgrade_globaldb none 5 (UPGRADES_LIST demoOkStep)
        ⟨⟨some ⟨some 2, none⟩, 7⟩, []⟩).states) :=
  ⟨rfl, rfl, C3_marker_deletion_and_version_write_atomic demoOkStep none 5 7
    none [] ⟨some ⟨some 2, some 2⟩, 7⟩ rfl rfl⟩

end Rotki

namespace Rotki

/-- C4: a stored version strictly below `MIN_SUPPORTED_GLOBAL_DB_VERSION` or
strictly above `GLOBAL_DB_VERSION` makes the run raise a fatal `ValueError`
before any backup is created and before any write: the whole directory is
untouched and the live database saw no observable mutation. -/
theorem C4_out_of_range_raises_before_any_mutation
    (restoreError : Option String) (tsNow : Nat)
    (upgrades : List UpgradeRecord) (v p : Nat) (m0 : Option Nat)
    (b0 : List (String × DBFile))
    (hv : v < MIN_SUPPORTED_GLOBAL_DB_VERSION ∨ GLOBAL_DB_VERSION < v) :
    (maybe_upgrade_globaldb restoreError tsNow upgrades
        ⟨⟨some ⟨some v, m0⟩, p⟩, b0⟩).fs = ⟨⟨some ⟨some v, m0⟩, p⟩, b0⟩ ∧
    (maybe_upgrade_globaldb restoreError tsNow upgrades
        ⟨⟨some ⟨some v, m0⟩, p⟩, b0⟩).states = [⟨some ⟨some v, m0⟩, p⟩] ∧
    (maybe_upgrade_globaldb restoreError tsNow upgrades
        ⟨⟨some ⟨some v, m0⟩, p⟩, b0⟩).result =
      .error (.valueError (if v < MIN_SUPPORTED_GLOBAL_DB_VERSION
        then tooOldMessage v else tooNewMessage v)) := by
  rcases hv with hv | hv
  · simp [maybe_upgrade_globaldb, get_setting_version, hv]
  · have hnotold : ¬ v < MIN_SUPPORTED_GLOBAL_DB_VERSION := by
      simp only [MIN_SUPPORTED_GLOBAL_DB_VERSION]
      simp only [GLOBAL_DB_VERSION] at hv
      omega
    simp [maybe_upgrade_globaldb, get_setting_version, hv, hnotold]

/-- Witness for C4 at the concrete version 1 (< 2): the run fails with the
too-old message and mutates nothing. -/
theorem C4_witness :
    (1 < MIN_SUPPORTED_GLOBAL_DB_VERSION ∨ GLOBAL_DB_VERSION < 1) ∧
    ((maybe_upgrade_globaldb none 5 (UPGRADES_LIST demoOkStep)
        ⟨⟨some ⟨some 1, none⟩, 7⟩, []⟩).fs = ⟨⟨some ⟨some 1, none⟩, 7⟩, []⟩ ∧
     (maybe_upgrade_globaldb none 5 (UPGRADES_LIST demoOkStep)
        ⟨⟨some ⟨some 1, none⟩, 7⟩, []⟩).states = [⟨some ⟨some 1, none⟩, 7⟩] ∧
     (maybe_upgrade_globaldb none 5 (UPGRADES_LIST demoOkStep)
        ⟨⟨some ⟨some 1, none⟩, 7⟩, []⟩).result =
       .error (.valueError (if 1 < MIN_SUPPORTED_GLOBAL_DB_VERSION
         then tooOldMessage 1 else tooNewMessage 1))) :=
  ⟨Or.inl (by decide), C4_out_of_range_raises_before_any_mutation none 5
    (UPGRADES_LIST demoOkStep) 1 7 none [] (Or.inl (by decide))⟩

/-- C5 counterexample: at stored version 2 — inside the supported range and
strictly below the target — with a registry containing no step for version 2,
the run returns the non-fresh success value and touches nothing; it does not
raise any registry-gap error, contrary to the claim. -/
theorem C5_counterexample :
    MIN_SUPPORTED_GLOBAL_DB_VERSION ≤ 2 ∧ 2 < GLOBAL_DB_VERSION ∧
    (∀ u ∈ ([] : List UpgradeRecord), u.from_version ≠ 2) ∧
    (maybe_upgrade_globaldb none 0 [] ⟨⟨some ⟨some 2, none⟩, 7⟩, []⟩).result =
      .ok false ∧
    (maybe_upgrade_globaldb none 0 [] ⟨⟨some ⟨some 2, none⟩, 7⟩, []⟩).fs =
      ⟨⟨some ⟨some 2, none⟩, 7⟩, []⟩ :=
  ⟨by decide, by decide, by simp, rfl, rfl⟩

/-- C5 amended: whenever the stored version is inside the supported range and
strictly below the target but no registered record matches it, the run
silently skips the gap — it returns the non-fresh success value with no
mutation and no error of any kind. -/
theorem C5_amended_registry_gap_silently_skipped
    (restoreError : Option String) (tsNow : Nat)
    (upgrades : List UpgradeRecord) (v p : Nat) (m0 : Option Nat)
    (b0 : List (String × DBFile))
    (hlo : MIN_SUPPORTED_GLOBAL_DB_VERSION ≤ v) (hhi : v < GLOBAL_DB_VERSION)
    (hgap : ∀ u ∈ upgrades, u.from_version ≠ v) :
    (maybe_upgrade_globaldb restoreError tsNow upgrades
        ⟨⟨some ⟨some v, m0⟩, p⟩, b0⟩).result = .ok false ∧
    (maybe_upgrade_globaldb restoreError tsNow upgrades
        ⟨⟨some ⟨some v, m0⟩, p⟩, b0⟩).fs = ⟨⟨some ⟨some v, m0⟩, p⟩, b0⟩ ∧
    (maybe_upgrade_globaldb restoreError tsNow upgrades
        ⟨⟨some ⟨some v, m0⟩, p⟩, b0⟩).states = [⟨some ⟨some v, m0⟩, p⟩] := by
  have hnotold : ¬ v < MIN_SUPPORTED_GLOBAL_DB_VERSION := Nat.not_lt.mpr hlo
  have hnotnew : ¬ GLOBAL_DB_VERSION < v := Nat.not_lt.mpr (Nat.le_of_lt hhi)
  simp only [maybe_upgrade_globaldb, get_setting_version, Option.getD_some,
    hnotold, if_false, hnotnew]
  rw [upgradeLoop_no_match restoreError tsNow v upgrades _ _ hgap]
  exact ⟨rfl, rfl, rfl⟩

/-- Witness for the amended C5 at the concrete input of the counterexample:
version 2, empty registry. -/
theorem C5_amended_witness :
    (MIN_SUPPORTED_GLOBAL_DB_VERSION ≤ 2 ∧ 2 < GLOBAL_DB_VERSION ∧
     ∀ u ∈ ([] : List UpgradeRecord), u.from_version ≠ 2) ∧
    ((maybe_upgrade_globaldb none 0 [] ⟨⟨some ⟨some 2, none⟩, 7⟩, []⟩).result =
       .ok false ∧
     (maybe_upgrade_globaldb none 0 [] ⟨⟨some ⟨some 2, none⟩, 7⟩, []⟩).fs =
       ⟨⟨some ⟨some 2, none⟩, 7⟩, []⟩ ∧
     (maybe_upgrade_globaldb none 0 [] ⟨⟨some ⟨some 2, none⟩, 7⟩, []⟩).states =
       [⟨some ⟨some 2, none⟩, 7⟩]) :=
  ⟨⟨by decide, by decide, by simp⟩,
   C5_amended_registry_gap_silently_skipped none 0 [] 2 7 none []
     (by decide) (by decide) (by simp)⟩

end Rotki

namespace Rotki

/-- C6 counterexample: a run that performs the 2→3 upgrade and a run that
finds the database already at the current version return the very same value
(`False`), so an upgrading run is not distinguishable from an up-to-date run
by the return value; the function returns a boolean, not a tri-state. -/
theorem C6_counterexample :
    (maybe_upgrade_globaldb none 0 (UPGRADES_LIST demoOkStep)
        ⟨⟨some ⟨some 2, none⟩, 7⟩, []⟩).result =
      (maybe_upgrade_globaldb none 0 (UPGRADES_LIST demoOkStep)
        ⟨⟨some ⟨some 3, none⟩, 7⟩, []⟩).result ∧
    (maybe_upgrade_globaldb none 0 (UPGRADES_LIST demoOkStep)
        ⟨⟨some ⟨some 2, none⟩, 7⟩, []⟩).fs.globalDb.storedVersion =
      some GLOBAL_DB_VERSION ∧
    (maybe_upgrade_globaldb none 0 (UPGRADES_LIST demoOkStep)
        ⟨⟨some ⟨some 3, none⟩, 7⟩, []⟩).fs =
      ⟨⟨some ⟨some 3, none⟩, 7⟩, []⟩ :=
  ⟨rfl, rfl, rfl⟩

/-- C6 amended: the run returns a two-state result — `True` exactly for a
fresh database, `False` both for a run that upgraded and for a run that found
the database current (or it raises a fatal error); an upgrading run is not
distinguishable from an up-to-date run by the return value. -/
theorem C6_amended_two_state_result
    (f : DBFile → Except (String × DBFile) DBFile)
    (restoreError : Option String) (tsNow p q r : Nat)
    (m0 m1 : Option Nat) (b0 b1 b2 : List (String × DBFile))
    (migrated : DBFile)
    (hf : f ⟨some ⟨some 2, some 2⟩, p⟩ = .ok migrated) :
    (maybe_upgrade_globaldb restoreError tsNow (UPGRADES_LIST f)
        ⟨⟨none, q⟩, b1⟩).result = .ok true ∧
    (maybe_upgrade_globaldb restoreError tsNow (UPGRADES_LIST f)
        ⟨⟨some ⟨some 2, m0⟩, p⟩, b0⟩).result = .ok false ∧
    (maybe_upgrade_globaldb restoreError tsNow (UPGRADES_LIST f)
        ⟨⟨some ⟨some GLOBAL_DB_VERSION, m1⟩, r⟩, b2⟩).result = .ok false := by
  refine ⟨?_, ?_, ?_⟩
  · simp [maybe_upgrade_globaldb]
  · rw [run_step_ok_eq f restoreError tsNow p m0 b0 migrated hf]
  · simp [maybe_upgrade_globaldb, upgradeLoop, UPGRADES_LIST,
      get_setting_version, GLOBAL_DB_VERSION, MIN_SUPPORTED_GLOBAL_DB_VERSION]

/-- Witness for the amended C6 at concrete inputs: fresh, upgrading and
up-to-date runs with the identity step. -/
theorem C6_amended_witness :
    demoOkStep ⟨some ⟨some 2, some 2⟩, 7⟩ = .ok ⟨some ⟨some 2, some 2⟩, 7⟩ ∧
    ((maybe_upgrade_globaldb none 0 (UPGRADES_LIST demoOkStep)
        ⟨⟨none, 9⟩, []⟩).result = .ok true ∧
     (maybe_upgrade_globaldb none 0 (UPGRADES_LIST demoOkStep)
        ⟨⟨some ⟨some 2, none⟩, 7⟩, []⟩).result = .ok false ∧
     (maybe_upgrade_globaldb none 0 (UPGRADES_LIST demoOkStep)
        ⟨⟨some ⟨some GLOBAL_DB_VERSION, none⟩, 8⟩, []⟩).result = .ok false) :=
  ⟨rfl, C6_amended_two_state_result demoOkStep none 0 7 9 8 none none [] [] []
    ⟨some ⟨some 2, some 2⟩, 7⟩ rfl⟩

/-- C7: when the step fails and the restoring file copy itself fails, the run
raises the propagated OS error — a different error from the `ValueError`
raised when the restore succeeds: it is never a `valueError` of any message,
and it is never swallowed into a normal return. -/
theorem C7_restore_failure_raises_distinct_error
    (f : DBFile → Except (String × DBFile) DBFile) (tsNow p : Nat)
    (m0 : Option Nat) (b0 : List (String × DBFile)) (e : String)
    (partialDb : DBFile) (m : String)
    (hf : f ⟨some ⟨some 2, some 2⟩, p⟩ = .error (e, partialDb)) :
    (maybe_upgrade_globaldb (some m) tsNow (UPGRADES_LIST f)
        ⟨⟨some ⟨some 2, m0⟩, p⟩, b0⟩).result = .error (.osError m) ∧
    (∀ s : String, (EngineError.osError m) ≠ EngineError.valueError s) ∧
    (∀ b : Bool, (maybe_upgrade_globaldb (some m) tsNow (UPGRADES_LIST f)
        ⟨⟨some ⟨some 2, m0⟩, p⟩, b0⟩).result ≠ .ok b) ∧
    (maybe_upgrade_globaldb none tsNow (UPGRADES_LIST f)
        ⟨⟨some ⟨some 2, m0⟩, p⟩, b0⟩).result =
      .error (.valueError (upgradeFailMessage 2 3 e)) := by
  rw [run_step_fail_restore_fail_eq f tsNow p m0 b0 e partialDb m hf,
    run_step_fail_eq f tsNow p m0 b0 e partialDb hf]
  refine ⟨rfl, ?_, ?_, rfl⟩
  · intro s
    simp
  · intro b
    simp

/-- Witness for C7 at a concrete input: the failing step plus a failed
restore copy with OS message `disk full`. -/
theorem C7_witness :
    demoFailStep ⟨some ⟨some 2, some 2⟩, 7⟩ =
      .error ("boom", ⟨some ⟨some 2, some 2⟩, 99⟩) ∧
    ((maybe_upgrade_globaldb (some "disk full") 5 (UPGRADES_LIST demoFailStep)
        ⟨⟨some ⟨some 2, none⟩, 7⟩, []⟩).result = .error (.osError "disk full") ∧
     (∀ s : String, (EngineError.osError "disk full") ≠ EngineError.valueError s) ∧
     (∀ b : Bool, (maybe_upgrade_globaldb (some "disk full") 5
        (UPGRADES_LIST demoFailStep)
        ⟨⟨some ⟨some 2, none⟩, 7⟩, []⟩).result ≠ .ok b) ∧
     (maybe_upgrade_globaldb none 5 (UPGRADES_LIST demoFailStep)
        ⟨⟨some ⟨some 2, none⟩, 7⟩, []⟩).result =
       .error (.valueError (upgradeFailMessage 2 3 "boom"))) :=
  ⟨rfl, C7_restore_failure_raises_distinct_error demoFailStep 5 7 none []
    "boom" ⟨some ⟨some 2, some 2⟩, 99⟩ "disk full" rfl⟩

end Rotki

namespace Rotki

/-- C8: a database with no settings table at all makes the run return the
fresh result (`True`) with no file mutation whatsoever: the directory is
unchanged, no backup is created, and the live database saw no observable
write. -/
theorem C8_no_settings_table_returns_fresh_untouched
    (restoreError : Option String) (tsNow : Nat)
    (upgrades : List UpgradeRecord) (fs : FS)
    (h : fs.globalDb.settings = none) :
    (maybe_upgrade_globaldb restoreError tsNow upgrades fs).result = .ok true ∧
    (maybe_upgrade_globaldb restoreError tsNow upgrades fs).fs = fs ∧
    (maybe_upgrade_globaldb restoreError tsNow upgrades fs).states =
      [fs.globalDb] := by
  simp [maybe_upgrade_globaldb, h]

/-- Witness for C8 at a concrete input: an uninitialized database. -/
theorem C8_witness :
    (⟨⟨none, 7⟩, []⟩ : FS).globalDb.settings = none ∧
    ((maybe_upgrade_globaldb none 5 (UPGRADES_LIST demoOkStep)
        ⟨⟨none, 7⟩, []⟩).result = .ok true ∧
     (maybe_upgrade_globaldb none 5 (UPGRADES_LIST demoOkStep)
        ⟨⟨none, 7⟩, []⟩).fs = ⟨⟨none, 7⟩, []⟩ ∧
     (maybe_upgrade_globaldb none 5 (UPGRADES_LIST demoOkStep)
        ⟨⟨none, 7⟩, []⟩).states = [(⟨⟨none, 7⟩, []⟩ : FS).globalDb]) :=
  ⟨rfl, C8_no_settings_table_returns_fresh_untouched none 5
    (UPGRADES_LIST demoOkStep) ⟨⟨none, 7⟩, []⟩ rfl⟩

/-- C9: when a step fails on a database that carried no marker before the
run and the restore succeeds, the restored database carries no
`ongoing_upgrade_from_version` marker: the snapshot was taken before the
marker write, so copying it back also erases the marker. -/
theorem C9_handled_failure_leaves_no_marker
    (f : DBFile → Except (String × DBFile) DBFile) (tsNow p : Nat)
    (b0 : List (String × DBFile)) (e : String) (partialDb : DBFile)
    (hf : f ⟨some ⟨some 2, some 2⟩, p⟩ = .error (e, partialDb)) :
    (maybe_upgrade_globaldb none tsNow (UPGRADES_LIST f)
        ⟨⟨some ⟨some 2, none⟩, p⟩, b0⟩).fs.globalDb.hasMarker = false ∧
    (maybe_upgrade_globaldb none tsNow (UPGRADES_LIST f)
        ⟨⟨some ⟨some 2, none⟩, p⟩, b0⟩).fs.globalDb =
      ⟨some ⟨some 2, none⟩, p⟩ ∧
    (maybe_upgrade_globaldb none tsNow (UPGRADES_LIST f)
        ⟨⟨some ⟨some 2, none⟩, p⟩, b0⟩).fs.backups =
      b0 ++ [(backupName tsNow 2, ⟨some ⟨some 2, none⟩, p⟩)] := by
  rw [run_step_fail_eq f tsNow p none b0 e partialDb hf]
  refine ⟨?_, rfl, rfl⟩
  simp [DBFile.hasMarker]

/-- Witness for C9 at a concrete input: the failing step on a marker-free
database at version 2. -/
theorem C9_witness :
    demoFailStep ⟨some ⟨some 2, some 2⟩, 7⟩ =
      .error ("boom", ⟨some ⟨some 2, some 2⟩, 99⟩) ∧
    ((maybe_upgrade_globaldb none 5 (UPGRADES_LIST demoFailStep)
        ⟨⟨some ⟨some 2, none⟩, 7⟩, []⟩).fs.globalDb.hasMarker = false ∧
     (maybe_upgrade_globaldb none 5 (UPGRADES_LIST demoFailStep)
        ⟨⟨some ⟨some 2, none⟩, 7⟩, []⟩).fs.globalDb =
       ⟨some ⟨some 2, none⟩, 7⟩ ∧
     (maybe_upgrade_globaldb none 5 (UPGRADES_LIST demoFailStep)
        ⟨⟨some ⟨some 2, none⟩, 7⟩, []⟩).fs.backups =
       [] ++ [(backupName 5 2, ⟨some ⟨some 2, none⟩, 7⟩)]) :=
  ⟨rfl, C9_handled_failure_leaves_no_marker demoFailStep 5 7 [] "boom"
    ⟨some ⟨some 2, some 2⟩, 99⟩ rfl⟩

/-- C10: when the settings table exists but holds no `version` key, the read
defaults to `GLOBAL_DB_VERSION`, so the database counts as up to date: the
run returns the non-fresh value, creates no backup and applies no step. -/
theorem C10_missing_version_key_defaults_to_current
    (restoreError : Option String) (tsNow : Nat)
    (f : DBFile → Except (String × DBFile) DBFile) (p : Nat)
    (m0 : Option Nat) (b0 : List (String × DBFile)) :
    (maybe_upgrade_globaldb restoreError tsNow (UPGRADES_LIST f)
        ⟨⟨some ⟨none, m0⟩, p⟩, b0⟩).result = .ok false ∧
    (maybe_upgrade_globaldb restoreError tsNow (UPGRADES_LIST f)
        ⟨⟨some ⟨none, m0⟩, p⟩, b0⟩).fs = ⟨⟨some ⟨none, m0⟩, p⟩, b0⟩ ∧
    (maybe_upgrade_globaldb restoreError tsNow (UPGRADES_LIST f)
        ⟨⟨some ⟨none, m0⟩, p⟩, b0⟩).states = [⟨some ⟨none, m0⟩, p⟩] ∧
    get_setting_version ⟨none, m0⟩ GLOBAL_DB_VERSION = GLOBAL_DB_VERSION := by
  refine ⟨?_, ?_, ?_, rfl⟩ <;>
    simp [maybe_upgrade_globaldb, upgradeLoop, UPGRADES_LIST,
      get_setting_version, GLOBAL_DB_VERSION, MIN_SUPPORTED_GLOBAL_DB_VERSION]

end Rotki
